import Mathlib

/-!
Verification development for the inter-rater variability pipeline
(`03a_generate_figure_inter_rater_variablity-PMJ_COV.py`).

The script loads per-subject/per-rater CSV files, keeps cervical spinal
levels 2..8, and produces two independent outputs from the filtered record
set: a figure of per-rater rectangles and a CSV table of per-(subject,
rater) midpoints with per-subject coefficients of variation (COV) and
their mean.

Numeric modelling: the script manipulates Python floats; here distances
are modelled as exact rationals (`ℚ`).  The one operation that leaves ℚ is
the sample standard deviation (a square root); the COV layer is therefore
valued in `ℝ`.  Pandas reductions (`std`, `mean` with `skipna`) are
modelled by their documented semantics, spelled out at each definition.
-/

/-- MeasurementRecord: one row of the concatenated, filtered data frame.
The script derives `subject` and `rater` from the `fname` column (lines
250–252 of the source) before the record set reaches the two output
stages; here they are carried as fields. -/
structure MeasurementRecord where
  subject : String
  rater : String
  spinal_level : Int
  distance_from_pmj_start : ℚ
  distance_from_pmj_end : ℚ
  height : ℚ
deriving DecidableEq, Repr

/-- SUBJECT_TO_AXIS dictionary (source lines 25–31): fixed subject roster
with the horizontal axis position of each subject. -/
def SUBJECT_TO_AXIS : List (String × ℚ) :=
  [("sub-barcelona01", 1), ("sub-brnoUhb03", 2), ("sub-amu02", 3),
   ("sub-007", 4), ("sub-010", 5)]

/-- Subject roster in order, i.e. `SUBJECT_TO_AXIS.keys()`. -/
def subjectList : List String := SUBJECT_TO_AXIS.map Prod.fst

/-- LIST_OF_RATER (source line 39): fixed rater roster. -/
def LIST_OF_RATER : List String := ["rater1", "rater2", "rater3", "rater4"]

/-- RATER_XOFFSET dictionary (source line 40): per-rater horizontal offset
of the drawn rectangle.  The float literals −0.275, −0.125, 0.025, 0.175
are modelled as the rationals they denote. -/
def RATER_XOFFSET : List (String × ℚ) :=
  [("rater1", -275/1000), ("rater2", -125/1000), ("rater3", 25/1000), ("rater4", 175/1000)]

/-- RATER_COLOR dictionary (source line 41). -/
def RATER_COLOR : List (String × String) :=
  [("rater1", "red"), ("rater2", "green"), ("rater3", "blue"), ("rater4", "orange")]

/-- Dictionary access `d[k]` for the fixed rosters above.  In the source
the dictionaries are only ever indexed with keys produced by iterating the
same dictionary (so the `KeyError` case cannot arise); the default value 0
of `getD` is likewise unreachable in every use below. -/
def dictGet (d : List (String × ℚ)) (k : String) : ℚ :=
  ((d.find? (fun p => p.1 == k)).map Prod.snd).getD 0

/-- Dictionary access for the colour table. -/
def dictGetStr (d : List (String × String)) (k : String) : String :=
  ((d.find? (fun p => p.1 == k)).map Prod.snd).getD ""

/-- Cervical spinal levels kept by the filter (source line 247). -/
def cervicalLevels : List Int := [2, 3, 4, 5, 6, 7, 8]

/-- Level Filter (source line 247):
`df = df[df['spinal_level'].isin([2, 3, 4, 5, 6, 7, 8])]`. -/
def levelFilter (df : List MeasurementRecord) : List MeasurementRecord :=
  df.filter (fun r => cervicalLevels.contains r.spinal_level)

/-- Model of `pandas.Series.unique` on the `spinal_level` column: distinct
values in order of first appearance. -/
def pandasUnique (l : List Int) : List Int :=
  l.foldl (fun acc a => if a ∈ acc then acc else acc ++ [a]) []

/-- Distinct spinal levels of the filtered frame, `df['spinal_level'].unique()`
(source lines 81 and 185). -/
def uniqueLevels (df : List MeasurementRecord) : List Int :=
  pandasUnique (df.map (·.spinal_level))

/-- Row selection
`df[(df['subject'] == subject) & (df['rater'] == rater) & (df['spinal_level'] == level)]`
(source lines 82 and 186). -/
def matchingRecords (df : List MeasurementRecord) (s r : String) (lvl : Int) :
    List MeasurementRecord :=
  df.filter (fun x => x.subject == s && x.rater == r && x.spinal_level == lvl)

/-- Midpoint of a spinal level: `mean = start + height / 2` where `start`
is the variable holding `row['distance_from_pmj_end']` (source lines
193–196). -/
def meanPosition (x : MeasurementRecord) : ℚ :=
  x.distance_from_pmj_end + x.height / 2

/-- CellValue: the value stored in the `mean` field of one aggregation
result.  The source stores either a Python float or the literal string
`'n/a'` (line 190), so the column is heterogeneous; `na` models the string
marker, `val` a numeric midpoint. -/
inductive CellValue where
  | na : CellValue
  | val : ℚ → CellValue
deriving DecidableEq, Repr

/-- ResultEntry: one dictionary appended to `results`
(source lines 190 and 197). -/
structure ResultEntry where
  subject : String
  rater : String
  spinal_level : Int
  mean : CellValue
deriving DecidableEq, Repr

/-- Option-valued `mapM` over lists, used to model loops whose body can
raise: `none` propagates the exception. -/
def optionMapM (f : α → Option β) : List α → Option (List β)
  | [] => some []
  | a :: l =>
    match f a, optionMapM f l with
    | some b, some bs => some (b :: bs)
    | _, _ => none

/-- Aggregated cell for one (subject, rater, level) combination (source
lines 186–197): an empty selection yields the explicit `'n/a'` marker; a
one-row selection yields the midpoint.  `float(row[...])` on a selection
with several rows raises `TypeError`, modelled as `none`. -/
def cellOf (df : List MeasurementRecord) (s r : String) (lvl : Int) :
    Option CellValue :=
  match matchingRecords df s r lvl with
  | [] => some CellValue.na
  | [x] => some (CellValue.val (meanPosition x))
  | _ => none

/-- Roster grid iterated by the aggregation loops of
`compute_mean_and_COV` (source lines 181–185): every roster subject, every
roster rater, every distinct spinal level of the filtered frame. -/
def rosterGrid (df : List MeasurementRecord) : List (String × String × Int) :=
  subjectList.flatMap fun s =>
    LIST_OF_RATER.flatMap fun r =>
      (uniqueLevels df).map fun lvl => (s, r, lvl)

/-- Midpoint Aggregator (source lines 178–203): the `results` list, built
over the roster grid, then pivoted into a table with `spinal_level` rows
and (subject, rater) columns.  The pivot of an *empty* `results` list
raises `KeyError` (a frame built from an empty list has no `spinal_level`
column), modelled by the `some [] => none` case; the keys of a non-empty
grid are pairwise distinct, so the pivot itself cannot fail otherwise. -/
def computeResults (df : List MeasurementRecord) : Option (List ResultEntry) :=
  match optionMapM
      (fun t => (cellOf df t.1 t.2.1 t.2.2).map
        (fun c => ResultEntry.mk t.1 t.2.1 t.2.2 c))
      (rosterGrid df) with
  | none => none
  | some [] => none
  | some entries => some entries

/-- Pivoted-table cell lookup: the value of column (subject, rater) at row
`spinal_level` (source line 203 builds this table; by construction of the
grid each key occurs at most once). -/
def entryFor (tbl : List ResultEntry) (s r : String) (lvl : Int) :
    Option CellValue :=
  (tbl.find? (fun e => e.subject == s && e.rater == r && e.spinal_level == lvl)).map
    (·.mean)

/-- Pandas `Series.mean` over a fully numeric list:
`sum / count` (for the lists this is applied to below, the list is
non-empty, so the division is by a positive count). -/
def qMean (xs : List ℚ) : ℚ := xs.sum / (xs.length : ℚ)

/-- Pandas sample variance with the default `ddof = 1`:
`sum (x - mean)^2 / (n - 1)`.  For `n ≤ 1` pandas yields NaN; every use
below is guarded by a `2 ≤ n` check, so the value of this expression there
is irrelevant. -/
def sampleVar (xs : List ℚ) : ℚ :=
  ((xs.map (fun x => (x - qMean xs) ^ 2)).sum) / ((xs.length : ℚ) - 1)

/-- All cells of one subject's block of the pivoted table, i.e. the values
of the four `df[subject]` columns over every spinal-level row. -/
def subjectCells (tbl : List ResultEntry) (s : String) : List CellValue :=
  (tbl.filter (fun e => e.subject == s)).map (·.mean)

/-- Whether a subject's block of the pivoted table is entirely numeric.
If any combination anywhere in the table is missing, the heterogeneous
`mean` column makes every pivoted column carry Python objects; pandas'
`std`/`mean` then succeed on a subject's block exactly when the block can
be cast to float, i.e. contains no `'n/a'` string (the cast of the string
raises, the block is dropped as non-numeric, and the resulting COV column
is NaN — under pandas 2.x the reduction raises instead; either way no
value is produced). -/
def subjectClean (tbl : List ResultEntry) (s : String) : Bool :=
  (subjectCells tbl s).all fun c =>
    match c with
    | CellValue.val _ => true
    | CellValue.na => false

/-- The four rater cells of one subject at one spinal-level row, in rater
column order. -/
def ratersAt (tbl : List ResultEntry) (s : String) (lvl : Int) : List CellValue :=
  LIST_OF_RATER.filterMap fun r => entryFor tbl s r lvl

/-- Numeric values among a list of cells (the `'n/a'` marker carries no
number). -/
def numsOf (cs : List CellValue) : List ℚ :=
  cs.filterMap fun c =>
    match c with
    | CellValue.val q => some q
    | CellValue.na => none

/-- One cell of the `COV_<subject>` column (source line 207):
`(df[subject].std(axis=1) / df[subject].mean(axis=1)) * 100`.
The reduction produces a number only when the subject's block is numeric
(see `subjectClean`); pandas' `std` with `ddof = 1` is furthermore NaN
when fewer than two values enter it.  A NaN cell is modelled as `none`.
The square root of the sample variance leaves ℚ, hence the `ℝ` value.
Caveat: a zero mean would make pandas produce an IEEE `inf`/`NaN` ratio;
that corner is outside the rational model and never arises in the
theorems below. -/
noncomputable def covCell (tbl : List ResultEntry) (s : String) (lvl : Int) :
    Option ℝ :=
  if subjectClean tbl s = true ∧ 2 ≤ (numsOf (ratersAt tbl s lvl)).length then
    some ((Real.sqrt ((sampleVar (numsOf (ratersAt tbl s lvl)) : ℚ) : ℝ) /
      ((qMean (numsOf (ratersAt tbl s lvl)) : ℚ) : ℝ)) * 100)
  else none

/-- Pandas `DataFrame.mean(axis=1)` over float columns with the default
`skipna=True`, as `nanmean` computes it: NaN entries are masked to 0 for
the sum, the divisor is the count of non-NaN entries, and the result is
NaN when that count is zero. -/
noncomputable def pandasRowMean (cells : List (Option ℝ)) : Option ℝ :=
  if cells.countP (fun c => c.isSome) = 0 then none
  else some ((cells.map (fun c => c.getD 0)).sum /
    ((cells.countP (fun c => c.isSome) : ℕ) : ℝ))

/-- One cell of the `COV_mean` column (source line 210): the row mean of
the five `COV_<subject>` columns. -/
noncomputable def covMeanCell (tbl : List ResultEntry) (lvl : Int) : Option ℝ :=
  pandasRowMean (subjectList.map fun s => covCell tbl s lvl)

/-- Serialization of one midpoint cell by `DataFrame.to_csv` (source line
214): a Python string cell is written verbatim, so the `'n/a'` marker
appears literally; a numeric cell is written as its decimal text (its
exact shape is irrelevant to the claims, only that the marker is the
literal `n/a`). -/
def serializeCell : CellValue → String
  | CellValue.na => "n/a"
  | CellValue.val q => toString q

/-- The form in which `DataFrame.to_csv` writes a genuinely missing (NaN)
value: the default `na_rep` is the empty string. -/
def pandasToCsvNaRep : String := ""

/-- Rect: one rectangle drawn by `generate_figure` together with its
annotations (source lines 93–122): position `(x, y)`, fixed width 0.1,
height, fill colour, the level-number text, and the dashed mean tick drawn
from `(x, y + height/2)` to `(x + 0.1, y + height/2)`. -/
structure Rect where
  x : ℚ
  y : ℚ
  width : ℚ
  height : ℚ
  color : String
  label : Int
  tickY : ℚ
  tickX1 : ℚ
  tickX2 : ℚ
deriving DecidableEq, Repr

/-- Rectangle built for one matched record (source lines 89–122): the
`start` variable holds `row['distance_from_pmj_end']`, the x position is
`SUBJECT_TO_AXIS[subject] + RATER_XOFFSET[rater]`, and the mean tick sits
at `start + height/2`. -/
def mkRect (ax : ℚ) (r : String) (x : MeasurementRecord) (lvl : Int) : Rect :=
  { x := ax + dictGet RATER_XOFFSET r
    y := x.distance_from_pmj_end
    width := 1/10
    height := x.height
    color := dictGetStr RATER_COLOR r
    label := lvl
    tickY := x.distance_from_pmj_end + x.height / 2
    tickX1 := ax + dictGet RATER_XOFFSET r
    tickX2 := ax + dictGet RATER_XOFFSET r + 1/10 }

/-- Grid iterated by the drawing loops of `generate_figure` (source lines
77–81): the subject dictionary's (key, axis) pairs, the rater roster, the
distinct spinal levels of the filtered frame. -/
def axisGrid (df : List MeasurementRecord) : List ((String × ℚ) × String × Int) :=
  SUBJECT_TO_AXIS.flatMap fun sa =>
    LIST_OF_RATER.flatMap fun r =>
      (uniqueLevels df).map fun lvl => (sa, r, lvl)

/-- Drawing step for one grid point (source lines 82–122): an empty row
selection is skipped (`continue`), a one-row selection yields a rectangle,
and `float(...)` on a selection with several rows raises `TypeError`,
modelled as `none`. -/
def rectFor (df : List MeasurementRecord) (s : String) (ax : ℚ) (r : String)
    (lvl : Int) : Option (Option Rect) :=
  match matchingRecords df s r lvl with
  | [] => some none
  | [x] => some (some (mkRect ax r x lvl))
  | _ => none

/-- All rectangles drawn by `generate_figure`, in loop order. -/
def rectsOf (df : List MeasurementRecord) : Option (List Rect) :=
  (optionMapM (fun t => rectFor df t.1.1 t.1.2 t.2.1 t.2.2) (axisGrid df)).map
    (·.filterMap id)

/-- Vertical axis limits before reversal (source lines 126–127):
`(min(end.min(), start.min()) * 0.9, max(end.max(), start.max()) * 1.05)`.
On an empty frame pandas' column `min`/`max` are NaN, and
`ax.set_ylim(NaN, NaN)` raises `ValueError` (matplotlib rejects non-finite
limits); that failure is modelled as `none`. -/
def ylimOf (df : List MeasurementRecord) : Option (ℚ × ℚ) :=
  match (df.map (·.distance_from_pmj_end)).min?,
      (df.map (·.distance_from_pmj_start)).min?,
      (df.map (·.distance_from_pmj_end)).max?,
      (df.map (·.distance_from_pmj_start)).max? with
  | some e1, some s1, some e2, some s2 =>
    some (min e1 s1 * (9/10), max e2 s2 * (21/20))
  | _, _, _, _ => none

/-- Fixed y ticks `range(40, 170, 10)` (source line 138), set regardless
of the data range. -/
def yticksFixed : List Int :=
  [40, 50, 60, 70, 80, 90, 100, 110, 120, 130, 140, 150, 160]

/-- Figure: the geometric content of the saved image — the rectangles, the
displayed y limits `(bottom, top)` after the reversal
`ax.set_ylim(ax.get_ylim()[::-1])` (source line 141), and the y ticks. -/
structure Figure where
  rects : List Rect
  ylimDisplayed : ℚ × ℚ
  yticks : List Int
deriving DecidableEq, Repr

/-- Layout Renderer `generate_figure` (source lines 64–165): draws the
rectangles, sets the axis limits, reverses them, sets the fixed ticks.
Either failure (a multi-row selection while drawing, or NaN limits on an
empty frame) aborts the function with an exception, modelled as `none`. -/
def generate_figure (df : List MeasurementRecord) : Option Figure :=
  match rectsOf df, ylimOf df with
  | some rs, some (lo, hi) =>
    some { rects := rs, ylimDisplayed := (hi, lo), yticks := yticksFixed }
  | _, _ => none

/-- MainResult: observable outcome of `main` (source lines 218–259).
`exitCode` is `some 1` only for the invalid-path check (line 227) — the
no-input report (line 233) sets no exit; `concatRes` is `none` when
`pd.concat` on an empty list raises `ValueError`; the two output fields
are `none` when execution never reaches them. -/
structure MainResult where
  noInputReported : Bool
  exitCode : Option Nat
  concatRes : Option (List MeasurementRecord)
  figureOut : Option (Option Figure)
  tableOut : Option (Option (List ResultEntry))

/-- Control flow of `main` (source lines 218–259) given whether the input
directory exists and the per-file record lists discovered there.  With
zero files the error is printed (`noInputReported`) but execution
continues into the loading loop and `pd.concat([])`, which raises
`ValueError`; with at least one file the frames are concatenated, filtered
to cervical levels, and both outputs are attempted. -/
def mainRun (dirExists : Bool) (files : List (List MeasurementRecord)) :
    MainResult :=
  if dirExists = false then
    { noInputReported := false, exitCode := some 1, concatRes := none,
      figureOut := none, tableOut := none }
  else
    let reported := files.isEmpty
    match files with
    | [] =>
      { noInputReported := reported, exitCode := none, concatRes := none,
        figureOut := none, tableOut := none }
    | _ =>
      let df := levelFilter files.flatten
      { noInputReported := reported, exitCode := none,
        concatRes := some files.flatten,
        figureOut := some (generate_figure df),
        tableOut := some (computeResults df) }

/-- Concrete input for the COV claim: subject `sub-barcelona01` at level 2
annotated by raters 1–3 (midpoints 55, 57, 59) while rater 4 is missing. -/
def dfCov : List MeasurementRecord :=
  [⟨"sub-barcelona01", "rater1", 2, 40, 50, 10⟩,
   ⟨"sub-barcelona01", "rater2", 2, 42, 52, 10⟩,
   ⟨"sub-barcelona01", "rater3", 2, 44, 54, 10⟩]

/-- The pivoted table of `dfCov` (its aggregation succeeds, as the first
COV theorem below records). -/
def tblCov : List ResultEntry := (computeResults dfCov).getD []

/-- Concrete input for the COV-mean claim: at level 2, subject
`sub-barcelona01` has the four midpoints 23, 19, 19, 19 (mean 20, sample
variance 4, COV 10) and subject `sub-brnoUhb03` has 13, 9, 9, 9 (mean 10,
sample variance 4, COV 20); the remaining three subjects are missing. -/
def dfMean : List MeasurementRecord :=
  [⟨"sub-barcelona01", "rater1", 2, 20, 23, 0⟩,
   ⟨"sub-barcelona01", "rater2", 2, 18, 19, 0⟩,
   ⟨"sub-barcelona01", "rater3", 2, 18, 19, 0⟩,
   ⟨"sub-barcelona01", "rater4", 2, 18, 19, 0⟩,
   ⟨"sub-brnoUhb03", "rater1", 2, 12, 13, 0⟩,
   ⟨"sub-brnoUhb03", "rater2", 2, 8, 9, 0⟩,
   ⟨"sub-brnoUhb03", "rater3", 2, 8, 9, 0⟩,
   ⟨"sub-brnoUhb03", "rater4", 2, 8, 9, 0⟩]

/-- The pivoted table of `dfMean`. -/
def tblMean : List ResultEntry := (computeResults dfMean).getD []

/-- Concrete input for the missing-marker claim: a single record, so every
other roster combination at level 2 has no matching record. -/
def dfNa : List MeasurementRecord :=
  [⟨"sub-barcelona01", "rater1", 2, 40, 50, 10⟩]

/-- The pivoted table of `dfNa`. -/
def tblNa : List ResultEntry := (computeResults dfNa).getD []

/-- Concrete input for the midpoint claim: `distance_from_pmj_end = 50.0`,
`height = 10.0`. -/
def dfMid : List MeasurementRecord :=
  [⟨"sub-barcelona01", "rater1", 2, 40, 50, 10⟩]

/-- Concrete input for the renderer claims: one roster record. -/
def dfFig : List MeasurementRecord :=
  [⟨"sub-barcelona01", "rater1", 2, 40, 50, 10⟩]

/-- Concrete input for the out-of-roster claim: one roster record plus one
record whose subject and rater are outside the fixed rosters and whose
boundary distances (200 and 220) dominate the roster record's. -/
def dfOut : List MeasurementRecord :=
  [⟨"sub-barcelona01", "rater1", 2, 40, 50, 10⟩,
   ⟨"sub-extra99", "rater7", 2, 200, 220, 20⟩]

/-- The out-of-roster record of `dfOut`. -/
def recOut : MeasurementRecord := ⟨"sub-extra99", "rater7", 2, 200, 220, 20⟩

/-- The single record of `dfFig`. -/
def recFig : MeasurementRecord := ⟨"sub-barcelona01", "rater1", 2, 40, 50, 10⟩

/-- The rectangles drawn for `dfFig`. -/
def rectsFig : List Rect := (rectsOf dfFig).getD []

/-- All boundary distances observed in the filtered record set: the
`distance_from_pmj_start` column followed by the `distance_from_pmj_end`
column. -/
def boundaryValues (df : List MeasurementRecord) : List ℚ :=
  df.map (·.distance_from_pmj_start) ++ df.map (·.distance_from_pmj_end)

/-! ### Helper lemmas -/

theorem optionMapM_some_of_mem {α β : Type} {f : α → Option β} {l : List α}
    {ys : List β} (h : optionMapM f l = some ys) {a : α} (ha : a ∈ l) :
    ∃ b, f a = some b ∧ b ∈ ys := by
  induction l generalizing ys with
  | nil => cases ha
  | cons x xs ih =>
    unfold optionMapM at h
    cases hfx : f x with
    | none => rw [hfx] at h; cases h
    | some b =>
      rw [hfx] at h
      cases hxs : optionMapM f xs with
      | none => rw [hxs] at h; cases h
      | some bs =>
        rw [hxs] at h
        injection h with h
        subst h
        rcases List.mem_cons.mp ha with h | h
        · subst h
          exact ⟨b, hfx, List.mem_cons_self _ _⟩
        · obtain ⟨b', hb', hmem⟩ := ih hxs h
          exact ⟨b', hb', List.mem_cons_of_mem _ hmem⟩

theorem optionMapM_mem_source {α β : Type} {f : α → Option β} {l : List α}
    {ys : List β} (h : optionMapM f l = some ys) {b : β} (hb : b ∈ ys) :
    ∃ a ∈ l, f a = some b := by
  induction l generalizing ys with
  | nil =>
    unfold optionMapM at h
    injection h with h
    subst h
    cases hb
  | cons x xs ih =>
    unfold optionMapM at h
    cases hfx : f x with
    | none => rw [hfx] at h; cases h
    | some b' =>
      rw [hfx] at h
      cases hxs : optionMapM f xs with
      | none => rw [hxs] at h; cases h
      | some bs =>
        rw [hxs] at h
        injection h with h
        subst h
        rcases List.mem_cons.mp hb with h | h
        · subst h
          exact ⟨x, List.mem_cons_self _ _, hfx⟩
        · obtain ⟨a, ha, hfa⟩ := ih hxs h
          exact ⟨a, List.mem_cons_of_mem _ ha, hfa⟩

theorem mem_foldl_dedup (l : List Int) (acc : List Int) (x : Int) :
    x ∈ l.foldl (fun acc a => if a ∈ acc then acc else acc ++ [a]) acc ↔
      x ∈ acc ∨ x ∈ l := by
  induction l generalizing acc with
  | nil => simp
  | cons a l ih =>
    simp only [List.foldl_cons]
    by_cases h : a ∈ acc
    · rw [if_pos h, ih]
      constructor
      · rintro (hx | hx)
        · exact Or.inl hx
        · exact Or.inr (List.mem_cons_of_mem _ hx)
      · rintro (hx | hx)
        · exact Or.inl hx
        · rcases List.mem_cons.mp hx with rfl | hx
          · exact Or.inl h
          · exact Or.inr hx
    · rw [if_neg h, ih]
      simp only [List.mem_append, List.mem_singleton, List.mem_cons]
      tauto

theorem mem_pandasUnique {l : List Int} {x : Int} :
    x ∈ pandasUnique l ↔ x ∈ l := by
  unfold pandasUnique
  rw [mem_foldl_dedup]
  simp

theorem mem_matchingRecords {df : List MeasurementRecord} {x : MeasurementRecord}
    {s r : String} {lvl : Int} :
    x ∈ matchingRecords df s r lvl ↔
      x ∈ df ∧ x.subject = s ∧ x.rater = r ∧ x.spinal_level = lvl := by
  simp [matchingRecords, List.mem_filter, and_assoc]

theorem matchingRecords_single {df : List MeasurementRecord} {x : MeasurementRecord}
    {s r : String} {lvl : Int} (h : matchingRecords df s r lvl = [x]) :
    x ∈ df ∧ x.subject = s ∧ x.rater = r ∧ x.spinal_level = lvl :=
  mem_matchingRecords.mp (by rw [h]; exact List.mem_cons_self _ _)

theorem level_mem_uniqueLevels {df : List MeasurementRecord}
    {x : MeasurementRecord} (h : x ∈ df) : x.spinal_level ∈ uniqueLevels df :=
  mem_pandasUnique.mpr (List.mem_map_of_mem _ h)

theorem mem_rosterGrid {df : List MeasurementRecord} {s r : String} {lvl : Int} :
    (s, r, lvl) ∈ rosterGrid df ↔
      s ∈ subjectList ∧ r ∈ LIST_OF_RATER ∧ lvl ∈ uniqueLevels df := by
  simp only [rosterGrid, List.mem_flatMap, List.mem_map, Prod.mk.injEq]
  constructor
  · rintro ⟨s', hs', r', hr', lvl', hlvl', hse, hre, hle⟩
    exact ⟨hse ▸ hs', hre ▸ hr', hle ▸ hlvl'⟩
  · rintro ⟨hs, hr, hlvl⟩
    exact ⟨s, hs, r, hr, lvl, hlvl, rfl, rfl, rfl⟩

theorem mem_axisGrid {df : List MeasurementRecord} {sa : String × ℚ} {r : String}
    {lvl : Int} :
    (sa, r, lvl) ∈ axisGrid df ↔
      sa ∈ SUBJECT_TO_AXIS ∧ r ∈ LIST_OF_RATER ∧ lvl ∈ uniqueLevels df := by
  simp only [axisGrid, List.mem_flatMap, List.mem_map, Prod.mk.injEq]
  constructor
  · rintro ⟨sa', hsa', r', hr', lvl', hlvl', hsae, hre, hle⟩
    exact ⟨hsae ▸ hsa', hre ▸ hr', hle ▸ hlvl'⟩
  · rintro ⟨hsa, hr, hlvl⟩
    exact ⟨sa, hsa, r, hr, lvl, hlvl, rfl, rfl, rfl⟩

theorem computeResults_eq_mapM {df : List MeasurementRecord}
    {tbl : List ResultEntry} (h : computeResults df = some tbl) :
    optionMapM
      (fun t => (cellOf df t.1 t.2.1 t.2.2).map
        (fun c => ResultEntry.mk t.1 t.2.1 t.2.2 c))
      (rosterGrid df) = some tbl := by
  unfold computeResults at h
  cases hm : optionMapM
      (fun t => (cellOf df t.1 t.2.1 t.2.2).map
        (fun c => ResultEntry.mk t.1 t.2.1 t.2.2 c))
      (rosterGrid df) with
  | none => rw [hm] at h; cases h
  | some es =>
    rw [hm] at h
    cases es with
    | nil => cases h
    | cons e es' => exact h

theorem countP_isSome_eq_length_reduceOption {α : Type} (l : List (Option α)) :
    l.countP (fun c => c.isSome) = l.reduceOption.length := by
  induction l with
  | nil => simp
  | cons c cs ih => cases c <;> simp [List.countP_cons, ih]

theorem sum_getD_eq_sum_reduceOption (l : List (Option ℝ)) :
    (l.map (fun c => c.getD 0)).sum = l.reduceOption.sum := by
  induction l with
  | nil => simp
  | cons c cs ih => cases c <;> simp [List.reduceOption_cons_of_some, ih]

theorem min?_spec {l : List ℚ} {a : ℚ} (h : l.min? = some a) :
    a ∈ l ∧ ∀ b ∈ l, a ≤ b := by
  haveI : Std.Antisymm (fun (x y : ℚ) => x ≤ y) := ⟨@le_antisymm ℚ _⟩
  rw [List.min?_eq_some_iff le_refl min_choice (fun _ _ _ => le_min_iff)] at h
  exact h

theorem max?_spec {l : List ℚ} {a : ℚ} (h : l.max? = some a) :
    a ∈ l ∧ ∀ b ∈ l, b ≤ a := by
  haveI : Std.Antisymm (fun (x y : ℚ) => x ≤ y) := ⟨@le_antisymm ℚ _⟩
  rw [List.max?_eq_some_iff le_refl max_choice (fun _ _ _ => max_le_iff)] at h
  exact h

theorem min?_isSome_of_ne_nil {l : List ℚ} (h : l ≠ []) : ∃ a, l.min? = some a := by
  cases l with
  | nil => exact absurd rfl h
  | cons x xs => exact ⟨_, List.min?_cons'⟩

theorem max?_isSome_of_ne_nil {l : List ℚ} (h : l ≠ []) : ∃ a, l.max? = some a := by
  cases l with
  | nil => exact absurd rfl h
  | cons x xs => exact ⟨_, List.max?_cons'⟩

/-! ### Claim theorems -/

/-- C4: for every (subject, rater, level) combination with exactly one
matching record in the filtered record set, the midpoint value placed in
the table equals `distance_from_pmj_end + height / 2` exactly. -/
theorem claim_C4_midpoint_exact (df : List MeasurementRecord) (s r : String)
    (lvl : Int) (x : MeasurementRecord)
    (h : matchingRecords df s r lvl = [x]) :
    cellOf df s r lvl =
      some (CellValue.val (x.distance_from_pmj_end + x.height / 2)) := by
  unfold cellOf
  rw [h]
  rfl

/-- C4 witness: at the concrete input with `distance_from_pmj_end = 50`
and `height = 10` the midpoint is exactly 55. -/
theorem claim_C4_midpoint_exact_witness :
    cellOf dfMid "sub-barcelona01" "rater1" 2 = some (CellValue.val 55) := by
  have h := claim_C4_midpoint_exact dfMid "sub-barcelona01" "rater1" 2
    ⟨"sub-barcelona01", "rater1", 2, 40, 50, 10⟩ (by rfl)
  rw [h]
  norm_num

/-- C5: the level filter retains exactly the records whose `spinal_level`
lies in {2, 3, 4, 5, 6, 7, 8}; a record with level 1 or 9 never survives
it, and it may return the empty sequence. -/
theorem claim_C5_level_filter (df : List MeasurementRecord)
    (x : MeasurementRecord) :
    (x ∈ levelFilter df ↔ x ∈ df ∧ x.spinal_level ∈ cervicalLevels) ∧
    ((x.spinal_level = 1 ∨ x.spinal_level = 9) → x ∉ levelFilter df) ∧
    cervicalLevels = [2, 3, 4, 5, 6, 7, 8] ∧
    levelFilter [] = [] := by
  have hmem : x ∈ levelFilter df ↔ x ∈ df ∧ x.spinal_level ∈ cervicalLevels := by
    simp [levelFilter, List.mem_filter]
  refine ⟨hmem, ?_, rfl, rfl⟩
  intro hor hin
  have hlvl := (hmem.mp hin).2
  rcases hor with h | h <;> rw [h] at hlvl <;> simp [cervicalLevels] at hlvl

/-- C5 witness: a record with spinal level 9 is not in the filter's output
even though it is in its input. -/
theorem claim_C5_level_filter_witness :
    (⟨"s1", "r1", 9, 0, 0, 0⟩ : MeasurementRecord) ∉
      levelFilter [⟨"s1", "r1", 2, 40, 50, 10⟩, ⟨"s1", "r1", 9, 0, 0, 0⟩] :=
  (claim_C5_level_filter _ _).2.1 (Or.inr rfl)

/-- C3 counterexample: a combination with no matching record receives the
explicit marker, but the marker is the Python string `'n/a'`, which
`to_csv` writes literally — not the table format's standard empty/NaN
serialization (the empty string). -/
theorem claim_C3_counterexample :
    cellOf dfNa "sub-brnoUhb03" "rater1" 2 = some CellValue.na ∧
    serializeCell CellValue.na = "n/a" ∧
    serializeCell CellValue.na ≠ pandasToCsvNaRep := by
  refine ⟨rfl, rfl, by decide⟩

/-- C3 (amended): every roster (subject, rater, level) grid point with no
matching record is emitted as an explicit `'n/a'` marker — never a number
and never an omitted row — and that marker is serialized as the literal
text `n/a`, not as the standard empty/NaN form. -/
theorem claim_C3_missing_marker (df : List MeasurementRecord) (s r : String)
    (lvl : Int) (tbl : List ResultEntry)
    (hs : s ∈ subjectList) (hr : r ∈ LIST_OF_RATER)
    (hlvl : lvl ∈ uniqueLevels df)
    (hempty : matchingRecords df s r lvl = [])
    (htbl : computeResults df = some tbl) :
    cellOf df s r lvl = some CellValue.na ∧
    (∀ q : ℚ, CellValue.na ≠ CellValue.val q) ∧
    ResultEntry.mk s r lvl CellValue.na ∈ tbl ∧
    serializeCell CellValue.na = "n/a" := by
  have hcell : cellOf df s r lvl = some CellValue.na := by
    unfold cellOf
    rw [hempty]
  refine ⟨hcell, fun q h => CellValue.noConfusion h, ?_, rfl⟩
  have hgrid : (s, r, lvl) ∈ rosterGrid df := mem_rosterGrid.mpr ⟨hs, hr, hlvl⟩
  obtain ⟨b, hb, hbmem⟩ := optionMapM_some_of_mem (computeResults_eq_mapM htbl) hgrid
  simp only [hcell, Option.map_some'] at hb
  exact (Option.some.inj hb) ▸ hbmem

/-- C3 witness: at the one-record input `dfNa`, the grid point
(sub-brnoUhb03, rater1, 2) has no record and its row is present in the
table with the `'n/a'` marker. -/
theorem claim_C3_missing_marker_witness :
    ResultEntry.mk "sub-brnoUhb03" "rater1" 2 CellValue.na ∈ tblNa := by
  have h := claim_C3_missing_marker dfNa "sub-brnoUhb03" "rater1" 2 tblNa
    (by decide) (by decide) (by decide) (by rfl) (by rfl)
  exact h.2.2.1

/-- C6 counterexample: on the empty filtered record set the figure stage
does not succeed — the axis limits are the min/max of empty columns (NaN),
which the plotting library rejects — so no valid image is produced,
contradicting the claim that the pipeline still succeeds. -/
theorem claim_C6_counterexample :
    generate_figure ([] : List MeasurementRecord) = none := rfl

/-- C6 (amended): when the filtered record set is empty, the drawing loop
itself draws no rectangles, but both output stages fail: the vertical axis
limits have no value (NaN, rejected by `set_ylim`) and the table stage's
pivot of an empty frame fails, so neither a figure nor a table is
produced. -/
theorem claim_C6_empty_input_fails (df : List MeasurementRecord)
    (h : df = []) :
    rectsOf df = some [] ∧ ylimOf df = none ∧ generate_figure df = none ∧
    computeResults df = none := by
  subst h
  exact ⟨rfl, rfl, rfl, rfl⟩

/-- C6 witness: the amended statement at the empty record set. -/
theorem claim_C6_empty_input_fails_witness :
    rectsOf ([] : List MeasurementRecord) = some [] ∧
    ylimOf ([] : List MeasurementRecord) = none ∧
    generate_figure ([] : List MeasurementRecord) = none ∧
    computeResults ([] : List MeasurementRecord) = none :=
  claim_C6_empty_input_fails [] rfl

/-- C7: with an existing input directory but zero matching files, the
no-input error is reported yet no exit is issued at the point of detection
(in contrast to the invalid-directory check, which exits with code 1);
execution continues into the loading loop and the concatenation step,
where `pd.concat` on the empty frame list raises. -/
theorem claim_C7_no_input_reported_not_fatal :
    (mainRun true []).noInputReported = true ∧
    (mainRun true []).exitCode = none ∧
    (mainRun true []).concatRes = none ∧
    (mainRun false []).exitCode = some 1 :=
  ⟨rfl, rfl, rfl, rfl⟩

/-- C1: evaluation of the COV computation at a failing input.  At `dfCov`
the subject sub-barcelona01 has three non-missing rater midpoints (55, 57,
59) at level 2, so by the claim its COV there should be the defined value
`std/mean * 100` over those three values; but the fourth cell is the
string marker `'n/a'`, the pivoted columns are therefore not numeric, and
the reduction yields no value: the COV cell is missing. -/
theorem claim_C1_cov_undefined_despite_three_raters :
    computeResults dfCov = some tblCov ∧
    numsOf (ratersAt tblCov "sub-barcelona01" 2) = [55, 57, 59] ∧
    covCell tblCov "sub-barcelona01" 2 = none := by
  have e : numsOf (ratersAt tblCov "sub-barcelona01" 2) =
      [50 + 10 / 2, 52 + 10 / 2, 54 + 10 / 2] := rfl
  refine ⟨rfl, by rw [e]; norm_num, ?_⟩
  unfold covCell
  rw [if_neg]
  rintro ⟨hclean, -⟩
  have hfalse : subjectClean tblCov "sub-barcelona01" = false := by decide
  rw [hfalse] at hclean
  cases hclean

/-- C2: a COV_mean cell is missing exactly when every subject's COV cell
is missing at that level, and otherwise equals the arithmetic mean of the
defined per-subject COV values (the sum of the defined values divided by
their number). -/
theorem claim_C2_cov_mean_is_mean_of_defined (tbl : List ResultEntry)
    (lvl : Int) :
    (covMeanCell tbl lvl = none ↔ ∀ s ∈ subjectList, covCell tbl s lvl = none) ∧
    ((subjectList.map fun s => covCell tbl s lvl).reduceOption ≠ [] →
      covMeanCell tbl lvl =
        some ((subjectList.map fun s => covCell tbl s lvl).reduceOption.sum /
          (((subjectList.map fun s => covCell tbl s lvl).reduceOption.length : ℕ) : ℝ))) := by
  constructor
  · constructor
    · intro h s hs
      unfold covMeanCell pandasRowMean at h
      by_cases hc :
          (subjectList.map fun s => covCell tbl s lvl).countP (fun c => c.isSome) = 0
      · have hmem : covCell tbl s lvl ∈ subjectList.map fun s => covCell tbl s lvl :=
          List.mem_map_of_mem _ hs
        have hnot := List.countP_eq_zero.mp hc _ hmem
        simpa [Option.not_isSome_iff_eq_none] using hnot
      · rw [if_neg hc] at h
        cases h
    · intro hall
      unfold covMeanCell pandasRowMean
      rw [if_pos]
      apply List.countP_eq_zero.mpr
      intro c hcmem
      obtain ⟨s, hs, rfl⟩ := List.mem_map.mp hcmem
      rw [hall s hs]
      simp
  · intro hne
    have hc : (subjectList.map fun s => covCell tbl s lvl).countP (fun c => c.isSome) ≠ 0 := by
      rw [countP_isSome_eq_length_reduceOption]
      simpa [List.length_eq_zero] using hne
    unfold covMeanCell pandasRowMean
    rw [if_neg hc, sum_getD_eq_sum_reduceOption, countP_isSome_eq_length_reduceOption]

/-- C2 witness: the concrete instance from the claim — at level 2 of
`dfMean`, subject sub-barcelona01 has COV 10 and subject sub-brnoUhb03 has
COV 20, the other three subjects are missing, and COV_mean is 15. -/
theorem claim_C2_cov_mean_is_mean_of_defined_witness :
    covCell tblMean "sub-barcelona01" 2 = some 10 ∧
    covCell tblMean "sub-brnoUhb03" 2 = some 20 ∧
    covCell tblMean "sub-amu02" 2 = none ∧
    covMeanCell tblMean 2 = some 15 := by
  have hsqrt : Real.sqrt ((4 : ℚ) : ℝ) = 2 := by
    rw [show ((4 : ℚ) : ℝ) = (2 : ℝ) ^ 2 by norm_num,
      Real.sqrt_sq (by norm_num : (0 : ℝ) ≤ 2)]
  have h1 : covCell tblMean "sub-barcelona01" 2 = some 10 := by
    unfold covCell
    rw [if_pos (by decide)]
    rw [show numsOf (ratersAt tblMean "sub-barcelona01" 2) =
      [23 + 0 / 2, 19 + 0 / 2, 19 + 0 / 2, 19 + 0 / 2] from rfl]
    rw [show ([23 + 0 / 2, 19 + 0 / 2, 19 + 0 / 2, 19 + 0 / 2] : List ℚ) =
      [23, 19, 19, 19] from by norm_num]
    rw [show sampleVar [23, 19, 19, 19] = (4 : ℚ) from by
        norm_num [sampleVar, qMean],
      show qMean [23, 19, 19, 19] = (20 : ℚ) from by norm_num [qMean]]
    rw [hsqrt]
    norm_num
  have h2 : covCell tblMean "sub-brnoUhb03" 2 = some 20 := by
    unfold covCell
    rw [if_pos (by decide)]
    rw [show numsOf (ratersAt tblMean "sub-brnoUhb03" 2) =
      [13 + 0 / 2, 9 + 0 / 2, 9 + 0 / 2, 9 + 0 / 2] from rfl]
    rw [show ([13 + 0 / 2, 9 + 0 / 2, 9 + 0 / 2, 9 + 0 / 2] : List ℚ) =
      [13, 9, 9, 9] from by norm_num]
    rw [show sampleVar [13, 9, 9, 9] = (4 : ℚ) from by
        norm_num [sampleVar, qMean],
      show qMean [13, 9, 9, 9] = (10 : ℚ) from by norm_num [qMean]]
    rw [hsqrt]
    norm_num
  have h3 : covCell tblMean "sub-amu02" 2 = none := by
    unfold covCell
    rw [if_neg]
    rintro ⟨hclean, -⟩
    have hfalse : subjectClean tblMean "sub-amu02" = false := by decide
    rw [hfalse] at hclean
    cases hclean
  have h4 : covCell tblMean "sub-007" 2 = none := by
    unfold covCell
    rw [if_neg]
    rintro ⟨hclean, -⟩
    have hfalse : subjectClean tblMean "sub-007" = false := by decide
    rw [hfalse] at hclean
    cases hclean
  have h5 : covCell tblMean "sub-010" 2 = none := by
    unfold covCell
    rw [if_neg]
    rintro ⟨hclean, -⟩
    have hfalse : subjectClean tblMean "sub-010" = false := by decide
    rw [hfalse] at hclean
    cases hclean
  have hmap : (subjectList.map fun s => covCell tblMean s 2) =
      [some 10, some 20, none, none, none] := by
    rw [show subjectList =
      ["sub-barcelona01", "sub-brnoUhb03", "sub-amu02", "sub-007", "sub-010"] from rfl]
    simp [h1, h2, h3, h4, h5]
  have hds : (subjectList.map fun s => covCell tblMean s 2).reduceOption =
      [10, 20] := by
    rw [hmap]
    rfl
  have h := (claim_C2_cov_mean_is_mean_of_defined tblMean 2).2
    (by rw [hds]; exact List.cons_ne_nil _ _)
  rw [hds] at h
  refine ⟨h1, h2, h3, ?_⟩
  rw [h]
  norm_num

/-- C8: for every roster subject (with its axis position), roster rater
and level whose selection matches exactly one record, the renderer draws
the rectangle positioned at the subject's axis position plus the rater's
offset, spanning vertically from `distance_from_pmj_end` to
`distance_from_pmj_end + height`, labeled with the level number, colored
by the rater's color, with the mean tick at the vertical midpoint; and the
four rater offsets paired with the fixed width 0.1 give pairwise disjoint
intervals, ordered as the raters are listed. -/
theorem claim_C8_renderer_geometry (df : List MeasurementRecord) (s : String)
    (ax : ℚ) (r : String) (lvl : Int) (x : MeasurementRecord)
    (rects : List Rect)
    (hs : (s, ax) ∈ SUBJECT_TO_AXIS) (hr : r ∈ LIST_OF_RATER)
    (hx : matchingRecords df s r lvl = [x]) (hrects : rectsOf df = some rects) :
    mkRect ax r x lvl ∈ rects ∧
    (mkRect ax r x lvl).x = ax + dictGet RATER_XOFFSET r ∧
    (mkRect ax r x lvl).y = x.distance_from_pmj_end ∧
    (mkRect ax r x lvl).y + (mkRect ax r x lvl).height =
      x.distance_from_pmj_end + x.height ∧
    (mkRect ax r x lvl).label = lvl ∧
    (mkRect ax r x lvl).color = dictGetStr RATER_COLOR r ∧
    (mkRect ax r x lvl).tickY = x.distance_from_pmj_end + x.height / 2 ∧
    (mkRect ax r x lvl).width = 1 / 10 ∧
    List.Pairwise (fun p q : String × ℚ => p.2 + 1 / 10 < q.2) RATER_XOFFSET := by
  refine ⟨?_, rfl, rfl, rfl, rfl, rfl, rfl, rfl,
    by norm_num [RATER_XOFFSET, List.pairwise_cons]⟩
  obtain ⟨hxdf, hsub, hrat, hlvl⟩ := matchingRecords_single hx
  have hgrid : ((s, ax), r, lvl) ∈ axisGrid df :=
    mem_axisGrid.mpr ⟨hs, hr, hlvl ▸ level_mem_uniqueLevels hxdf⟩
  unfold rectsOf at hrects
  cases hm : optionMapM (fun t => rectFor df t.1.1 t.1.2 t.2.1 t.2.2)
      (axisGrid df) with
  | none => rw [hm] at hrects; cases hrects
  | some ys =>
    rw [hm] at hrects
    simp only [Option.map_some'] at hrects
    injection hrects with hrects
    obtain ⟨b, hb, hbmem⟩ := optionMapM_some_of_mem hm hgrid
    have hbval : some (mkRect ax r x lvl) = b := by
      have hb' : rectFor df s ax r lvl = some b := hb
      unfold rectFor at hb'
      rw [hx] at hb'
      exact Option.some.inj hb'
    rw [← hrects]
    exact List.mem_filterMap.mpr ⟨some (mkRect ax r x lvl), hbval ▸ hbmem, rfl⟩

/-- C8 witness: the rectangle drawn for `recFig` sits among the rectangles
of `dfFig`, and its mean tick is at 55. -/
theorem claim_C8_renderer_geometry_witness :
    mkRect 1 "rater1" recFig 2 ∈ rectsFig ∧
    (mkRect 1 "rater1" recFig 2).tickY = 55 := by
  have h := claim_C8_renderer_geometry dfFig "sub-barcelona01" 1 "rater1" 2
    recFig rectsFig (by decide) (by decide) rfl rfl
  refine ⟨h.1, ?_⟩
  rw [h.2.2.2.2.2.2.1]
  norm_num [recFig]

/-- C9: for a non-empty filtered record set (whose drawing loop succeeds),
the vertical axis limits are the least observed boundary distance times
0.9 and the greatest times 1.05, the figure displays them reversed
(greater value first, so smaller distances appear higher), and the y-tick
list is the fixed 10-unit grid independent of the data. -/
theorem claim_C9_axis_limits (df : List MeasurementRecord) (hne : df ≠ [])
    (rs : List Rect) (hr : rectsOf df = some rs) :
    ∃ m M : ℚ,
      m ∈ boundaryValues df ∧ M ∈ boundaryValues df ∧
      (∀ v ∈ boundaryValues df, m ≤ v ∧ v ≤ M) ∧
      ylimOf df = some (m * (9 / 10), M * (21 / 20)) ∧
      generate_figure df =
        some { rects := rs, ylimDisplayed := (M * (21 / 20), m * (9 / 10)),
               yticks := yticksFixed } ∧
      List.Chain' (fun a b : Int => b = a + 10) yticksFixed := by
  have hends : df.map (·.distance_from_pmj_end) ≠ [] := by
    simpa using hne
  have hstarts : df.map (·.distance_from_pmj_start) ≠ [] := by
    simpa using hne
  obtain ⟨e1, he1⟩ := min?_isSome_of_ne_nil hends
  obtain ⟨s1, hs1⟩ := min?_isSome_of_ne_nil hstarts
  obtain ⟨e2, he2⟩ := max?_isSome_of_ne_nil hends
  obtain ⟨s2, hs2⟩ := max?_isSome_of_ne_nil hstarts
  have hylim : ylimOf df = some (min e1 s1 * (9 / 10), max e2 s2 * (21 / 20)) := by
    unfold ylimOf
    rw [he1, hs1, he2, hs2]
  refine ⟨min e1 s1, max e2 s2, ?_, ?_, ?_, hylim, ?_,
    by norm_num [yticksFixed, List.chain'_cons]⟩
  · rcases min_choice e1 s1 with h | h <;> rw [h]
    · exact List.mem_append_right _ (min?_spec he1).1
    · exact List.mem_append_left _ (min?_spec hs1).1
  · rcases max_choice e2 s2 with h | h <;> rw [h]
    · exact List.mem_append_right _ (max?_spec he2).1
    · exact List.mem_append_left _ (max?_spec hs2).1
  · intro v hv
    rcases List.mem_append.mp hv with h | h
    · exact ⟨le_trans (min_le_right _ _) ((min?_spec hs1).2 v h),
        le_trans ((max?_spec hs2).2 v h) (le_max_right _ _)⟩
    · exact ⟨le_trans (min_le_left _ _) ((min?_spec he1).2 v h),
        le_trans ((max?_spec he2).2 v h) (le_max_left _ _)⟩
  · unfold generate_figure
    rw [hr, hylim]

/-- C9 witness: the axis-limit characterization instantiated at the
one-record input `dfFig`. -/
theorem claim_C9_axis_limits_witness :
    ∃ m M : ℚ,
      m ∈ boundaryValues dfFig ∧ M ∈ boundaryValues dfFig ∧
      (∀ v ∈ boundaryValues dfFig, m ≤ v ∧ v ≤ M) ∧
      ylimOf dfFig = some (m * (9 / 10), M * (21 / 20)) ∧
      generate_figure dfFig =
        some { rects := rectsFig, ylimDisplayed := (M * (21 / 20), m * (9 / 10)),
               yticks := yticksFixed } ∧
      List.Chain' (fun a b : Int => b = a + 10) yticksFixed :=
  claim_C9_axis_limits dfFig (by decide) rectsFig rfl

/-- C10: a filtered record whose subject or rater lies outside the fixed
rosters generates no rectangle (every drawn rectangle stems from a
roster record) and heads no column of the midpoint table (every table
entry's subject and rater are roster members), yet its two boundary
distances still constrain the vertical axis limits. -/
theorem claim_C10_out_of_roster_excluded (df : List MeasurementRecord)
    (r0 : MeasurementRecord) (hmem : r0 ∈ df)
    (hout : r0.subject ∉ subjectList ∨ r0.rater ∉ LIST_OF_RATER) :
    (∀ rects, rectsOf df = some rects → ∀ rect ∈ rects,
      ∃ x ∈ df, x ≠ r0 ∧ x.subject ∈ subjectList ∧ x.rater ∈ LIST_OF_RATER ∧
        ∃ ax, (x.subject, ax) ∈ SUBJECT_TO_AXIS ∧
          rect = mkRect ax x.rater x x.spinal_level) ∧
    (∀ tbl, computeResults df = some tbl → ∀ e ∈ tbl,
      e.subject ∈ subjectList ∧ e.rater ∈ LIST_OF_RATER) ∧
    (∃ lo hi, ylimOf df = some (lo, hi) ∧
      lo ≤ r0.distance_from_pmj_start * (9 / 10) ∧
      lo ≤ r0.distance_from_pmj_end * (9 / 10) ∧
      r0.distance_from_pmj_start * (21 / 20) ≤ hi ∧
      r0.distance_from_pmj_end * (21 / 20) ≤ hi) := by
  refine ⟨?_, ?_, ?_⟩
  · intro rects hrects rect hrect
    unfold rectsOf at hrects
    cases hm : optionMapM (fun t => rectFor df t.1.1 t.1.2 t.2.1 t.2.2)
        (axisGrid df) with
    | none => rw [hm] at hrects; cases hrects
    | some ys =>
      rw [hm] at hrects
      simp only [Option.map_some'] at hrects
      injection hrects with hrects
      rw [← hrects] at hrect
      obtain ⟨o, homem, ho⟩ := List.mem_filterMap.mp hrect
      obtain ⟨t, htgrid, htval⟩ := optionMapM_mem_source hm homem
      obtain ⟨⟨hsax, hrrat, hlvl⟩⟩ :=
        (⟨mem_axisGrid.mp htgrid⟩ : PLift _)
      have hrf : rectFor df t.1.1 t.1.2 t.2.1 t.2.2 = some o := htval
      unfold rectFor at hrf
      rcases hmr : matchingRecords df t.1.1 t.2.1 t.2.2 with _ | ⟨x, _ | ⟨y, l⟩⟩
      · rw [hmr] at hrf
        injection hrf with hrf
        rw [← hrf] at ho
        cases ho
      · rw [hmr] at hrf
        injection hrf with hrf
        rw [← hrf] at ho
        injection ho with ho
        obtain ⟨hxdf, hxs, hxr, hxl⟩ := matchingRecords_single hmr
        have hsubj : x.subject ∈ subjectList := by
          rw [hxs]
          exact List.mem_map_of_mem Prod.fst hsax
        have hrat : x.rater ∈ LIST_OF_RATER := hxr ▸ hrrat
        refine ⟨x, hxdf, ?_, hsubj, hrat, t.1.2, ?_, ?_⟩
        · intro hxe
          rcases hout with h | h
          · exact h (hxe ▸ hsubj)
          · exact h (hxe ▸ hrat)
        · rw [hxs]
          exact hsax
        · rw [← ho, hxr, hxl]
      · rw [hmr] at hrf
        cases hrf
  · intro tbl htbl e he
    obtain ⟨t, htgrid, htval⟩ :=
      optionMapM_mem_source (computeResults_eq_mapM htbl) he
    obtain ⟨hsl, hrl, hll⟩ := mem_rosterGrid.mp htgrid
    obtain ⟨c, hc, hce⟩ := Option.map_eq_some'.mp htval
    rw [← hce]
    exact ⟨hsl, hrl⟩
  · have hne : df ≠ [] := by
      intro h
      rw [h] at hmem
      cases hmem
    have hends : df.map (·.distance_from_pmj_end) ≠ [] := by simpa using hne
    have hstarts : df.map (·.distance_from_pmj_start) ≠ [] := by simpa using hne
    obtain ⟨e1, he1⟩ := min?_isSome_of_ne_nil hends
    obtain ⟨s1, hs1⟩ := min?_isSome_of_ne_nil hstarts
    obtain ⟨e2, he2⟩ := max?_isSome_of_ne_nil hends
    obtain ⟨s2, hs2⟩ := max?_isSome_of_ne_nil hstarts
    have hylim : ylimOf df = some (min e1 s1 * (9 / 10), max e2 s2 * (21 / 20)) := by
      unfold ylimOf
      rw [he1, hs1, he2, hs2]
    have hsmem : r0.distance_from_pmj_start ∈ df.map (·.distance_from_pmj_start) :=
      List.mem_map_of_mem _ hmem
    have hemem : r0.distance_from_pmj_end ∈ df.map (·.distance_from_pmj_end) :=
      List.mem_map_of_mem _ hmem
    have hc : (0 : ℚ) ≤ 9 / 10 := by norm_num
    have hc2 : (0 : ℚ) ≤ 21 / 20 := by norm_num
    refine ⟨min e1 s1 * (9 / 10), max e2 s2 * (21 / 20), hylim, ?_, ?_, ?_, ?_⟩
    · exact mul_le_mul_of_nonneg_right
        (le_trans (min_le_right _ _) ((min?_spec hs1).2 _ hsmem)) hc
    · exact mul_le_mul_of_nonneg_right
        (le_trans (min_le_left _ _) ((min?_spec he1).2 _ hemem)) hc
    · exact mul_le_mul_of_nonneg_right
        (le_trans ((max?_spec hs2).2 _ hsmem) (le_max_right _ _)) hc2
    · exact mul_le_mul_of_nonneg_right
        (le_trans ((max?_spec he2).2 _ hemem) (le_max_left _ _)) hc2

/-- C10 witness: at `dfOut` the out-of-roster record `recOut` (subject
sub-extra99, rater7) still constrains the axis limits. -/
theorem claim_C10_out_of_roster_excluded_witness :
    ∃ lo hi, ylimOf dfOut = some (lo, hi) ∧
      lo ≤ recOut.distance_from_pmj_start * (9 / 10) ∧
      lo ≤ recOut.distance_from_pmj_end * (9 / 10) ∧
      recOut.distance_from_pmj_start * (21 / 20) ≤ hi ∧
      recOut.distance_from_pmj_end * (21 / 20) ≤ hi :=
  (claim_C10_out_of_roster_excluded dfOut recOut (by decide)
    (Or.inl (by decide))).2.2
